import Mathlib

/-!
Shallow embedding of the analytics bot (event store, settings store, aggregation
queries, heatmap densification, settings session, message-ingestion listener),
translated from `src/discord-bot/database/queries.js`, `src/index.js`,
`src/services/chart-generator.js`, `src/discord-bot/commands/settings.js` and
`src/discord-bot/commands/report.js`, together with theorems settling the
frozen claims about it.

Timestamps are modelled as `Int` (JS `Date.now()` milliseconds), SQLite
integer flags as `Nat` (the schema stores 1/0), and the nullable
`log_channel_id` column as a three-state `JsVal` so that the JS distinction
between an absent key (`undefined`) and a SQL `NULL` stays observable.
-/

namespace AiBot

/-- JS-level value of the `log_channel_id` field: the key may be absent
(`undef`, as in the object literal built by `getGuildSettings` on the
lazy-create path), SQL `NULL` (`null`), or a channel-id string. -/
inductive JsVal where
  | undef
  | null
  | str (s : String)
deriving DecidableEq, Repr

/-- JS truthiness of a `JsVal`: `undefined` and `null` are falsy, a string is
truthy unless empty (the code only ever tests this field with `?`/`!`). -/
def JsVal.truthy : JsVal → Bool
  | JsVal.undef => false
  | JsVal.null => false
  | JsVal.str s => !(s.isEmpty)

/-- One row of the `guild_settings` table (schema in `initDatabase`):
`guild_id TEXT PRIMARY KEY, enabled INTEGER DEFAULT 1, log_channel_id TEXT,
tracked_channels TEXT DEFAULT [], notifications_enabled INTEGER DEFAULT 1`. -/
structure SettingsRow where
  guild_id : String
  enabled : Nat
  log_channel_id : JsVal
  tracked_channels : String
  notifications_enabled : Nat
deriving DecidableEq, Repr

/-- The row produced in the store by `INSERT INTO guild_settings (guild_id)
VALUES (?)`: every other column takes its schema default
(`enabled = 1`, `log_channel_id = NULL`, `tracked_channels = "[]"`,
`notifications_enabled = 1`). -/
def defaultRow (g : String) : SettingsRow :=
  { guild_id := g, enabled := 1, log_channel_id := JsVal.null,
    tracked_channels := "[]", notifications_enabled := 1 }

/-- The object literal `getGuildSettings` returns on the lazy-create path:
`settings = (guild_id, enabled: 1, tracked_channels: "[]",
notifications_enabled: 1)` — note it has NO `log_channel_id` key, so that
field reads as JS `undefined`. -/
def localDefaultSettings (g : String) : SettingsRow :=
  { guild_id := g, enabled := 1, log_channel_id := JsVal.undef,
    tracked_channels := "[]", notifications_enabled := 1 }

/-- One row of the `messages` table. -/
structure MessageRow where
  guild_id : String
  user_id : String
  channel_id : String
  message_length : Nat
  timestamp : Int
deriving DecidableEq, Repr

/-- One row of the `reactions` table. -/
structure ReactionRow where
  guild_id : String
  user_id : String
  emoji : String
  timestamp : Int
deriving DecidableEq, Repr

/-- One row of the `members` table (`action` is the string `join` or `leave`). -/
structure MemberRow where
  guild_id : String
  user_id : String
  action : String
  timestamp : Int
deriving DecidableEq, Repr

/-- The embedded relational store: the four tables created by `initDatabase`. -/
structure DB where
  messages : List MessageRow
  reactions : List ReactionRow
  members : List MemberRow
  guild_settings : List SettingsRow
deriving DecidableEq, Repr

/-- A store with all four tables empty. -/
def emptyDB : DB := { messages := [], reactions := [], members := [], guild_settings := [] }

/-- `trackMessage` (queries.js:3): unconditional `INSERT INTO messages`;
`now` stands for the `Date.now()` taken inside the call. -/
def trackMessage (db : DB) (guildId userId channelId : String) (messageLength : Nat)
    (now : Int) : DB :=
  { db with messages := db.messages ++
      [{ guild_id := guildId, user_id := userId, channel_id := channelId,
         message_length := messageLength, timestamp := now }] }

/-- `trackMember` (queries.js:19): unconditional `INSERT INTO members`. -/
def trackMember (db : DB) (guildId userId action : String) (now : Int) : DB :=
  { db with members := db.members ++
      [{ guild_id := guildId, user_id := userId, action := action, timestamp := now }] }

/-- The `SELECT * FROM guild_settings WHERE guild_id = ?` step of
`getGuildSettings` (queries.js:28); `stmt.get` returns the first matching row
or nothing. -/
def selectSettings (db : DB) (g : String) : Option SettingsRow :=
  db.guild_settings.find? (fun r => decide (r.guild_id = g))

/-- The `INSERT INTO guild_settings (guild_id) VALUES (?)` step of
`getGuildSettings` (queries.js:32) as a standalone statement: `guild_id` is
the PRIMARY KEY, so inserting a key that is already present fails with a
UNIQUE-constraint error instead of adding a second row. -/
def insertDefaultSettings (db : DB) (g : String) : Except String DB :=
  if db.guild_settings.any (fun r => decide (r.guild_id = g)) then
    Except.error "UNIQUE constraint failed: guild_settings.guild_id"
  else
    Except.ok { db with guild_settings := db.guild_settings ++ [defaultRow g] }

/-- `getGuildSettings` (queries.js:27): SELECT the row; if absent, INSERT a
default row and return a locally constructed default object (not a re-read of
the stored row). The whole call runs synchronously on the single-threaded
embedded store, so within one call the INSERT cannot conflict. -/
def getGuildSettings (db : DB) (g : String) : DB × SettingsRow :=
  match selectSettings db g with
  | some s => (db, s)
  | none =>
      ({ db with guild_settings := db.guild_settings ++ [defaultRow g] },
       localDefaultSettings g)

/-- Statement-level interleaving of two concurrent first calls of
`getGuildSettings` for the same guild, following its read-then-insert
structure: A runs its SELECT, then B runs its SELECT (on the same store),
then A runs its INSERT, then B runs its INSERT. Returns the final store and
the outcome of each call. -/
def raceTwoFirstCalls (db0 : DB) (g : String) :
    DB × Except String SettingsRow × Except String SettingsRow :=
  match selectSettings db0 g with
  | some s => (db0, Except.ok s, Except.ok s)
  | none =>
      match insertDefaultSettings db0 g with
      | Except.error e => (db0, Except.error e, Except.error e)
      | Except.ok db1 =>
          match insertDefaultSettings db1 g with
          | Except.ok db2 =>
              (db2, Except.ok (localDefaultSettings g), Except.ok (localDefaultSettings g))
          | Except.error e =>
              (db1, Except.ok (localDefaultSettings g), Except.error e)

/-- The `updates` object passed to `updateGuildSettings`: each field is
present (`some`) or absent (`none`); only present keys appear in the built
`SET` clause. The callers only ever pass these four columns. -/
structure SettingsUpdate where
  enabled : Option Nat := none
  log_channel_id : Option String := none
  tracked_channels : Option String := none
  notifications_enabled : Option Nat := none
deriving DecidableEq, Repr

/-- Whether `Object.keys(updates)` is empty, i.e. the built `SET` clause has
no assignments. -/
def SettingsUpdate.isEmpty (u : SettingsUpdate) : Bool :=
  u.enabled.isNone && u.log_channel_id.isNone &&
    u.tracked_channels.isNone && u.notifications_enabled.isNone

/-- Effect of the generated `UPDATE guild_settings SET ... WHERE guild_id = ?`
on one row whose `guild_id` matches: assigned columns take the new value,
unassigned columns keep their prior value. -/
def applyUpdate (r : SettingsRow) (u : SettingsUpdate) : SettingsRow :=
  { guild_id := r.guild_id,
    enabled := u.enabled.getD r.enabled,
    log_channel_id := (u.log_channel_id.map JsVal.str).getD r.log_channel_id,
    tracked_channels := u.tracked_channels.getD r.tracked_channels,
    notifications_enabled := u.notifications_enabled.getD r.notifications_enabled }

/-- Error message of the statement `UPDATE guild_settings SET  WHERE
guild_id = ?` that `updateGuildSettings` builds when `updates` has no keys:
an empty `SET` clause is a SQL syntax error, thrown by `db.prepare`. -/
def emptyUpdateError : String := "SqliteError: near WHERE: syntax error"

/-- `updateGuildSettings` (queries.js:40): builds
`UPDATE guild_settings SET k1 = ?, ... WHERE guild_id = ?` from the keys of
`updates` and runs it. With no keys the statement is malformed and `prepare`
throws before anything is written; otherwise exactly the matching row is
updated on exactly the named columns. -/
def updateGuildSettings (db : DB) (g : String) (u : SettingsUpdate) :
    Except String DB :=
  if u.isEmpty then
    Except.error emptyUpdateError
  else
    Except.ok { db with guild_settings :=
      db.guild_settings.map (fun r => if r.guild_id = g then applyUpdate r u else r) }

/-- Number of `guild_settings` rows for guild `g`. -/
def settingsRowCount (db : DB) (g : String) : Nat :=
  db.guild_settings.countP (fun r => decide (r.guild_id = g))

/-- The at-most-one-settings-row-per-community predicate. -/
def atMostOneRow (db : DB) : Prop :=
  ∀ g, settingsRowCount db g ≤ 1

/-- Millisecond window length of the SQL queries: `7*24*60*60*1000` for
`week`, else `30*24*60*60*1000` (queries.js:51,137). -/
def timeRangeOf (period : String) : Int :=
  if period = "week" then 7 * 24 * 60 * 60 * 1000 else 30 * 24 * 60 * 60 * 1000

/-- Predicate of the current-window message queries:
`guild_id = ? AND timestamp >= ?` with `? = now - timeRange`. -/
def currWindowPred (g : String) (now timeRange : Int) (m : MessageRow) : Bool :=
  decide (m.guild_id = g) && decide (now - timeRange ≤ m.timestamp)

/-- Messages selected by the current-window queries of `getAnalytics`. -/
def windowMessages (db : DB) (g : String) (now timeRange : Int) : List MessageRow :=
  db.messages.filter (currWindowPred g now timeRange)

/-- `GROUP BY key` with `COUNT(*)`: one pair per distinct key, carrying the
number of its occurrences. -/
def groupCounts (keys : List String) : List (String × Nat) :=
  keys.dedup.map (fun k => (k, keys.count k))

/-- Descending-count order used by `ORDER BY count DESC`. -/
def countGE (a b : String × Nat) : Prop := b.2 ≤ a.2

instance : DecidableRel countGE := fun a b => inferInstanceAs (Decidable (b.2 ≤ a.2))

instance : IsTotal (String × Nat) countGE := ⟨fun a b => le_total b.2 a.2⟩

instance : IsTrans (String × Nat) countGE := ⟨fun _ _ _ h1 h2 => le_trans h2 h1⟩

/-- `GROUP BY key ORDER BY count DESC LIMIT 10` over a key column. -/
def rankTop10 (keys : List String) : List (String × Nat) :=
  ((groupCounts keys).insertionSort countGE).take 10

/-- The `topUsers` query of `getAnalytics` (queries.js:54): messages of the
guild in the window, grouped by `user_id`, counted, sorted descending by
count, truncated to 10. -/
def topUsersQuery (db : DB) (g : String) (now timeRange : Int) : List (String × Nat) :=
  rankTop10 ((windowMessages db g now timeRange).map MessageRow.user_id)

/-- The `topChannels` query of `getAnalytics` (queries.js:65), identical
grouping by `channel_id`. -/
def topChannelsQuery (db : DB) (g : String) (now timeRange : Int) : List (String × Nat) :=
  rankTop10 ((windowMessages db g now timeRange).map MessageRow.channel_id)

/-- A sparse `(hour, count)` row of the `hourlyActivity` query. -/
structure HourCount where
  hour : Nat
  count : Nat
deriving DecidableEq, Repr

/-- Result record of `getAnalytics` (the fields the claims are about). -/
structure Analytics where
  topUsers : List (String × Nat)
  topChannels : List (String × Nat)
  totalMessages : Nat
  newMembers : Nat
  leftMembers : Nat
deriving Repr

/-- `getAnalytics` (queries.js:49): all aggregates use the same
`timestamp >= now - timeRange` window. -/
def getAnalytics (db : DB) (g : String) (now : Int) (period : String) : Analytics :=
  let timeRange := timeRangeOf period
  { topUsers := topUsersQuery db g now timeRange,
    topChannels := topChannelsQuery db g now timeRange,
    totalMessages := (windowMessages db g now timeRange).length,
    newMembers := (db.members.filter
      (fun m => decide (m.guild_id = g) && decide (m.action = "join") &&
        decide (now - timeRange ≤ m.timestamp))).length,
    leftMembers := (db.members.filter
      (fun m => decide (m.guild_id = g) && decide (m.action = "leave") &&
        decide (now - timeRange ≤ m.timestamp))).length }

/-- Predicate of the previous-window query of `getPreviousAnalytics`
(queries.js:145): `guild_id = ? AND timestamp >= ? AND timestamp < ?` with
`startTime = now - timeRange*2` and `endTime = now - timeRange`. -/
def prevWindowPred (g : String) (now timeRange : Int) (m : MessageRow) : Bool :=
  decide (m.guild_id = g) && decide (now - timeRange * 2 ≤ m.timestamp) &&
    decide (m.timestamp < now - timeRange)

/-- Result record of `getPreviousAnalytics`. -/
structure PrevAnalytics where
  totalMessages : Nat
deriving Repr

/-- `getPreviousAnalytics` (queries.js:135): counts messages of the guild in
the half-open previous window. -/
def getPreviousAnalytics (db : DB) (g : String) (now : Int) (period : String) :
    PrevAnalytics :=
  { totalMessages := (db.messages.filter (prevWindowPred g now (timeRangeOf period))).length }

/-- Rounding to one decimal place, the exact-arithmetic reading of
`Number.prototype.toFixed(1)` (ties go to the larger value, matching `round`). -/
def round1 (q : ℚ) : ℚ := (round (q * 10) : ℤ) / 10

/-- The period-over-period change of report.js:110 and sendWeeklyReport:
`previous > 0 ? ((cur - prev) / prev * 100).toFixed(1) : 0`. -/
def changePercent (cur prev : ℕ) : ℚ :=
  if 0 < prev then round1 (((cur : ℚ) - (prev : ℚ)) / (prev : ℚ) * 100) else 0

/-- The `hours` array of `generateHeatmap` (chart-generator.js:82):
`Array.from(length 24, i => i)`. -/
def heatmapHours : List Nat := List.range 24

/-- Count looked up for one hour in `generateHeatmap`:
`found = hourlyActivity.find(a => a.hour === h); found ? found.count : 0`. -/
def countAt (hourlyActivity : List HourCount) (h : Nat) : Nat :=
  match hourlyActivity.find? (fun a => decide (a.hour = h)) with
  | some found => found.count
  | none => 0

/-- The dense `counts` array of `generateHeatmap` (chart-generator.js:83). -/
def heatmapCounts (hourlyActivity : List HourCount) : List Nat :=
  heatmapHours.map (countAt hourlyActivity)

/-- The densified heatmap series handed to the renderer: the hour labels
paired positionally with the dense counts. -/
def heatmapSeries (hourlyActivity : List HourCount) : List (Nat × Nat) :=
  heatmapHours.zip (heatmapCounts hourlyActivity)

/-- Splits a character list at commas (the element separator of a JSON
array literal). -/
def splitCommaAux : List Char → List Char → List (List Char)
  | [], acc => [acc.reverse]
  | c :: rest, acc =>
      if c = ',' then acc.reverse :: splitCommaAux rest []
      else splitCommaAux rest (c :: acc)

/-- Channel-id list denoted by the stored `tracked_channels` JSON text.
Modelled from the spec: `JSON.parse` is a platform builtin outside this
repository; the spec describes the column as a set of channel identifiers
with the empty set stored as the default `[]` text, and the listener parses
`settings.tracked_channels || "[]"`. This parser handles exactly the JSON
array-of-string-ids shapes the program stores: strip the brackets, split at
commas, strip the quotes of each element. -/
def parseChannels (s : String) : List String :=
  if s = "" || s = "[]" then []
  else
    let inner := (s.toList.drop 1).dropLast
    (splitCommaAux inner []).map
      (fun cs => String.mk (cs.filter (fun c => !(c = '"' || c = ' '))))

/-- A message notification as seen by the `MessageCreate` listener. -/
structure IncomingMessage where
  authorIsBot : Bool
  guild : Option String
  author_id : String
  channel_id : String
  content_length : Nat
deriving DecidableEq, Repr

/-- The `MessageCreate` listener (index.js:829): ignore bots and DMs, read
settings (lazily creating the row), skip when tracking is disabled, skip when
a non-empty tracked-channel list does not contain the channel, otherwise
record the message. -/
def onMessageCreate (db : DB) (msg : IncomingMessage) (now : Int) : DB :=
  if msg.authorIsBot then db
  else
    match msg.guild with
    | none => db
    | some g =>
        let res := getGuildSettings db g
        let db1 := res.1
        let settings := res.2
        if settings.enabled = 0 then db1
        else
          let tracked := parseChannels settings.tracked_channels
          if tracked ≠ [] ∧ msg.channel_id ∉ tracked then db1
          else trackMessage db1 g msg.author_id msg.channel_id msg.content_length now

/-- Operator actions of the interactive settings session (settings.js:78). -/
inductive SessionAction where
  | toggle_tracking
  | toggle_notifications
  | set_log_channel (channelId : String)
deriving DecidableEq, Repr

/-- The in-memory state captured by the `settings` command: the guild, the
invoking operator (the collector filter), the creation instant of the
collector, and the cached settings row the handler mutates locally. -/
structure Session where
  guild_id : String
  operator_id : String
  openedAt : Int
  cached : SettingsRow
deriving DecidableEq, Repr

/-- The `time: 300000` collector option (settings.js:75): five minutes. -/
def collectorTimeMs : Int := 300000

/-- `settings` command `execute` (settings.js:17): read-or-create the row and
open a component collector scoped to the invoking user. -/
def openSettingsSession (db : DB) (g operatorId : String) (now : Int) : DB × Session :=
  let res := getGuildSettings db g
  (res.1, { guild_id := g, operator_id := operatorId, openedAt := now, cached := res.2 })

/-- Delivery of one component action to the session. The collector created
with `time: 300000` stops collecting when that time has elapsed, so an action
arriving at or after `openedAt + 300000` is not handled at all (no store
write, no reply of any kind — there is no expiry reply in the code); the
`filter` drops actions from any user other than the invoking operator; a
collected action performs exactly one `updateGuildSettings` write on its one
field, mutates the cached copy, and replies with a confirmation string.
Returns the store, the session state, and the reply content (if any). -/
def deliverAction (db : DB) (sess : Session) (actorId : String) (t : Int)
    (a : SessionAction) : DB × Session × Option String :=
  if sess.openedAt + collectorTimeMs ≤ t then (db, sess, none)
  else if actorId = sess.operator_id then
    match a with
    | SessionAction.toggle_tracking =>
        let newVal : Nat := if sess.cached.enabled = 0 then 1 else 0
        match updateGuildSettings db sess.guild_id { enabled := some newVal } with
        | Except.error _ => (db, sess, none)
        | Except.ok db2 =>
            (db2, { sess with cached := { sess.cached with enabled := newVal } },
             some (if newVal = 0 then "Tracking disabled!" else "Tracking enabled!"))
    | SessionAction.toggle_notifications =>
        let newVal : Nat := if sess.cached.notifications_enabled = 0 then 1 else 0
        match updateGuildSettings db sess.guild_id
            { notifications_enabled := some newVal } with
        | Except.error _ => (db, sess, none)
        | Except.ok db2 =>
            (db2,
             { sess with cached := { sess.cached with notifications_enabled := newVal } },
             some (if newVal = 0 then "Notifications disabled!" else "Notifications enabled!"))
    | SessionAction.set_log_channel channelId =>
        match updateGuildSettings db sess.guild_id
            { log_channel_id := some channelId } with
        | Except.error _ => (db, sess, none)
        | Except.ok db2 =>
            (db2,
             { sess with cached := { sess.cached with log_channel_id := JsVal.str channelId } },
             some ("Log channel set to <#" ++ channelId ++ ">!"))
  else (db, sess, none)

/-- A one-guild store whose settings row has tracking disabled (used to
instantiate the ingestion-gating statements on concrete data). -/
def disabledStore : DB :=
  { messages := [], reactions := [], members := [],
    guild_settings :=
      [{ guild_id := "g1", enabled := 0, log_channel_id := JsVal.null,
         tracked_channels := "[]", notifications_enabled := 1 }] }

/-! ## Helper lemmas -/

lemma find?_append_of_none {α : Type} {p : α → Bool} {l1 l2 : List α}
    (h : l1.find? p = none) : (l1 ++ l2).find? p = l2.find? p := by
  induction l1 with
  | nil => rfl
  | cons a t ih =>
      rw [List.find?] at h
      cases hpa : p a with
      | true => rw [hpa] at h; exact absurd h (by simp)
      | false =>
          rw [hpa] at h
          rw [List.cons_append, List.find?, hpa]
          exact ih h

lemma selectSettings_none_notMem {db : DB} {g : String}
    (h : selectSettings db g = none) :
    ∀ r ∈ db.guild_settings, ¬(r.guild_id = g) := by
  intro r hr
  have := List.find?_eq_none.mp h r hr
  simpa using this

lemma settingsRowCount_zero {db : DB} {g : String}
    (h : selectSettings db g = none) : settingsRowCount db g = 0 := by
  unfold settingsRowCount
  rw [List.countP_eq_zero]
  intro r hr
  simpa using selectSettings_none_notMem h r hr

lemma any_false_of_selectSettings_none {db : DB} {g : String}
    (h : selectSettings db g = none) :
    db.guild_settings.any (fun r => decide (r.guild_id = g)) = false := by
  rw [List.any_eq_false]
  intro r hr
  simpa using selectSettings_none_notMem h r hr

lemma selectSettings_after_insert {db : DB} {g : String}
    (h : selectSettings db g = none) :
    selectSettings { db with guild_settings := db.guild_settings ++ [defaultRow g] } g =
      some (defaultRow g) := by
  unfold selectSettings at h ⊢
  rw [find?_append_of_none h]
  simp [defaultRow]

lemma getGuildSettings_of_none {db : DB} {g : String}
    (h : selectSettings db g = none) :
    getGuildSettings db g =
      ({ db with guild_settings := db.guild_settings ++ [defaultRow g] },
       localDefaultSettings g) := by
  unfold getGuildSettings
  rw [h]

lemma getGuildSettings_of_some {db : DB} {g : String} {s : SettingsRow}
    (h : selectSettings db g = some s) : getGuildSettings db g = (db, s) := by
  unfold getGuildSettings
  rw [h]

lemma settingsRowCount_append_default (db : DB) (g g2 : String) :
    settingsRowCount { db with guild_settings := db.guild_settings ++ [defaultRow g] } g2 =
      settingsRowCount db g2 + (if g = g2 then 1 else 0) := by
  unfold settingsRowCount
  rw [List.countP_append]
  congr 1
  by_cases hg : g = g2
  · subst hg; simp [defaultRow]
  · rw [List.countP_cons]
    simp [defaultRow, hg]

/-! ## C1 -/

/-- C1: at most one settings row per community. Sequentially, a second
`getGuildSettings` call for a brand-new community finds the row the first
call inserted, so exactly one row exists; the at-most-one-row predicate is
preserved by `getGuildSettings`, `updateGuildSettings` and `trackMessage`;
and even when two first calls interleave statement by statement, the PRIMARY
KEY lets only one INSERT through, so exactly one row is created — but the
losing call fails with a UNIQUE-constraint error (the implementation is
read-then-insert, not an atomic insert-if-absent with first-writer-wins
read-back). -/
theorem settings_at_most_one_row (db : DB) (g : String) :
    (selectSettings db g = none →
      settingsRowCount (getGuildSettings db g).1 g = 1 ∧
      settingsRowCount (getGuildSettings (getGuildSettings db g).1 g).1 g = 1) ∧
    (atMostOneRow db → atMostOneRow (getGuildSettings db g).1) ∧
    (∀ u db2, updateGuildSettings db g u = Except.ok db2 →
      atMostOneRow db → atMostOneRow db2) ∧
    (∀ userId channelId len now, atMostOneRow db →
      atMostOneRow (trackMessage db g userId channelId len now)) ∧
    (selectSettings db g = none →
      settingsRowCount (raceTwoFirstCalls db g).1 g = 1 ∧
      (raceTwoFirstCalls db g).2.1 = Except.ok (localDefaultSettings g) ∧
      ∃ e, (raceTwoFirstCalls db g).2.2 = Except.error e) := by
  refine ⟨?_, ?_, ?_, ?_, ?_⟩
  · intro h
    rw [getGuildSettings_of_none h]
    have h1 : settingsRowCount
        { db with guild_settings := db.guild_settings ++ [defaultRow g] } g = 1 := by
      rw [settingsRowCount_append_default, settingsRowCount_zero h, if_pos rfl]
    refine ⟨h1, ?_⟩
    rw [getGuildSettings_of_some (selectSettings_after_insert h)]
    exact h1
  · intro hinv g2
    cases hsel : selectSettings db g with
    | some s => rw [getGuildSettings_of_some hsel]; exact hinv g2
    | none =>
        rw [getGuildSettings_of_none hsel]
        rw [settingsRowCount_append_default]
        by_cases hg : g = g2
        · subst hg
          rw [settingsRowCount_zero hsel]
          simp
        · rw [if_neg hg]
          simpa using hinv g2
  · intro u db2 hok hinv g2
    unfold updateGuildSettings at hok
    by_cases he : u.isEmpty
    · rw [if_pos he] at hok; exact absurd hok (by simp)
    · rw [if_neg he] at hok
      cases hok
      unfold settingsRowCount
      simp only
      have hmapc : ∀ l : List SettingsRow,
          (l.map (fun r => if r.guild_id = g then applyUpdate r u else r)).countP
              (fun r => decide (r.guild_id = g2)) =
            l.countP (fun r => decide (r.guild_id = g2)) := by
        intro l
        induction l with
        | nil => rfl
        | cons a t ih =>
            rw [List.map_cons, List.countP_cons, List.countP_cons, ih]
            congr 1
            by_cases hg : a.guild_id = g
            · rw [if_pos hg]; rfl
            · rw [if_neg hg]
      rw [hmapc]
      exact hinv g2
  · intro userId channelId len now hinv g2
    exact hinv g2
  · intro h
    have hany := any_false_of_selectSettings_none h
    have hins : insertDefaultSettings db g =
        Except.ok { db with guild_settings := db.guild_settings ++ [defaultRow g] } := by
      unfold insertDefaultSettings
      rw [hany]
      simp
    have hany2 : (({ db with guild_settings := db.guild_settings ++ [defaultRow g] } : DB)
        |>.guild_settings.any (fun r => decide (r.guild_id = g))) = true := by
      simp [defaultRow]
    have hins2 : insertDefaultSettings
        ({ db with guild_settings := db.guild_settings ++ [defaultRow g] } : DB) g =
        Except.error "UNIQUE constraint failed: guild_settings.guild_id" := by
      unfold insertDefaultSettings
      rw [hany2]
      simp
    unfold raceTwoFirstCalls
    rw [h]
    simp only [hins, hins2]
    refine ⟨?_, trivial, ⟨_, rfl⟩⟩
    rw [settingsRowCount_append_default, settingsRowCount_zero h, if_pos rfl]

/-- C1 witness: concrete first-access and race for guild `g1` on the empty
store. -/
theorem settings_at_most_one_row_witness :
    selectSettings emptyDB "g1" = none ∧
    settingsRowCount (getGuildSettings (getGuildSettings emptyDB "g1").1 "g1").1 "g1" = 1 ∧
    settingsRowCount (raceTwoFirstCalls emptyDB "g1").1 "g1" = 1 ∧
    (∃ e, (raceTwoFirstCalls emptyDB "g1").2.2 = Except.error e) :=
  ⟨rfl, ((settings_at_most_one_row emptyDB "g1").1 rfl).2,
   ((settings_at_most_one_row emptyDB "g1").2.2.2.2 rfl).1,
   ((settings_at_most_one_row emptyDB "g1").2.2.2.2 rfl).2.2⟩

/-- C1 counterexample: in the statement-interleaved race of two first calls,
the losing call of the read-then-insert implementation ends in a
UNIQUE-constraint error instead of reading back the row of the winner, so
`getSettings` is not the claimed atomic first-writer-wins insert-if-absent. -/
theorem race_loser_gets_error_not_winner_row :
    (raceTwoFirstCalls emptyDB "g1").2.2 =
      Except.error "UNIQUE constraint failed: guild_settings.guild_id" := by rfl

/-! ## C2 -/

/-- C2 (amended): an action delivered at or after `openedAt + 300000` is not
collected at all: the Settings Store is not written, the session state is
unchanged, and no reply of any kind is produced. -/
theorem expired_action_is_silent_noop (db : DB) (sess : Session) (actorId : String)
    (t : Int) (a : SessionAction) (h : sess.openedAt + collectorTimeMs ≤ t) :
    deliverAction db sess actorId t a = (db, sess, none) := by
  unfold deliverAction
  rw [if_pos h]

/-- C2 witness: a concrete late toggle is a silent no-op. -/
theorem expired_action_is_silent_noop_witness :
    deliverAction emptyDB
      { guild_id := "g2", operator_id := "op2", openedAt := 100, cached := defaultRow "g2" }
      "op2" 9999999 SessionAction.toggle_notifications =
      (emptyDB,
       { guild_id := "g2", operator_id := "op2", openedAt := 100, cached := defaultRow "g2" },
       none) :=
  expired_action_is_silent_noop _ _ _ _ _ (by decide)

/-- C2 counterexample: an action arriving exactly at expiry of a session
opened at 0 produces NO reply at all — in particular no "session expired"
signal is ever sent to the operator (the code has no expiry reply). -/
theorem expired_action_no_expiry_signal :
    (deliverAction emptyDB
      { guild_id := "g1", operator_id := "op1", openedAt := 0, cached := defaultRow "g1" }
      "op1" 300000 SessionAction.toggle_tracking).2.2 = none := by rfl

/-! ## C10 -/

/-- C10: `updateGuildSettings` with an empty partial builds the malformed
statement `UPDATE guild_settings SET WHERE guild_id = ?`; `prepare` throws a
syntax error before anything is written, so the call fails and no settings
row changes (no `ok` state is ever produced). -/
theorem empty_update_errors (db : DB) (g : String) (u : SettingsUpdate)
    (h : u.isEmpty = true) :
    updateGuildSettings db g u = Except.error emptyUpdateError := by
  unfold updateGuildSettings
  rw [if_pos h]

/-- C10 witness: the all-absent update object errors on a concrete store. -/
theorem empty_update_errors_witness :
    updateGuildSettings emptyDB "g9"
      { enabled := none, log_channel_id := none, tracked_channels := none,
        notifications_enabled := none } = Except.error emptyUpdateError :=
  empty_update_errors emptyDB "g9" _ rfl

/-! ## C3 -/

lemma abs_round1_sub_le (q : ℚ) : |round1 q - q| ≤ 1 / 20 := by
  unfold round1
  have h := abs_sub_round (q * 10)
  rw [abs_sub_comm] at h
  have heq : ((round (q * 10) : ℤ) : ℚ) / 10 - q = ((round (q * 10) : ℤ) - q * 10) / 10 := by
    ring
  rw [heq, abs_div]
  have h10 : |(10 : ℚ)| = 10 := by norm_num
  rw [h10]
  linarith

/-- C3: the period-over-period change is exactly `0` whenever the previous
total is `0` (never undefined or infinite — the function is total on all
`cur, prev ≥ 0`), equals the percentage formula rounded to one decimal when
the previous total is positive, and in every case lies within `1/20` of the
unrounded value of the branch taken. -/
theorem changePercent_spec (cur prev : ℕ) :
    (prev = 0 → changePercent cur prev = 0) ∧
    (0 < prev → changePercent cur prev =
      round1 (((cur : ℚ) - (prev : ℚ)) / (prev : ℚ) * 100)) ∧
    |changePercent cur prev -
      (if 0 < prev then ((cur : ℚ) - (prev : ℚ)) / (prev : ℚ) * 100 else 0)| ≤ 1 / 20 := by
  refine ⟨?_, ?_, ?_⟩
  · intro h
    subst h
    simp [changePercent]
  · intro h
    rw [changePercent, if_pos h]
  · by_cases h : 0 < prev
    · rw [changePercent, if_pos h, if_pos h]
      exact abs_round1_sub_le _
    · rw [changePercent, if_neg h, if_neg h]
      norm_num

/-- C3 witness: `prev = 0` gives exactly `0`; `cur = 150, prev = 100` gives
the rounded percentage, concretely `50`. -/
theorem changePercent_spec_witness :
    changePercent 7 0 = 0 ∧
    changePercent 150 100 = round1 (((150 : ℚ) - (100 : ℚ)) / (100 : ℚ) * 100) ∧
    changePercent 150 100 = 50 := by
  refine ⟨(changePercent_spec 7 0).1 rfl, (changePercent_spec 150 100).2.1 (by norm_num), ?_⟩
  rw [(changePercent_spec 150 100).2.1 (by norm_num)]
  unfold round1
  push_cast
  rw [show ((150 : ℚ) - (100 : ℚ)) / (100 : ℚ) * 100 * 10 = 500 by norm_num]
  norm_num

/-! ## C4 -/

/-- C4: `updateGuildSettings` is a frame-respecting partial update — rows of
other guilds are kept as they are, the matching row becomes `applyUpdate r u`,
unassigned columns of `applyUpdate` keep their previous value, assigned ones
take exactly the assigned value, and the event tables are untouched. -/
theorem updateGuildSettings_frame (db : DB) (g : String) (u : SettingsUpdate) (db2 : DB)
    (hok : updateGuildSettings db g u = Except.ok db2) :
    (∀ r ∈ db.guild_settings, ¬(r.guild_id = g) → r ∈ db2.guild_settings) ∧
    (∀ r ∈ db.guild_settings, r.guild_id = g → applyUpdate r u ∈ db2.guild_settings) ∧
    (∀ r : SettingsRow,
      (applyUpdate r u).guild_id = r.guild_id ∧
      (u.enabled = none → (applyUpdate r u).enabled = r.enabled) ∧
      (u.log_channel_id = none → (applyUpdate r u).log_channel_id = r.log_channel_id) ∧
      (u.tracked_channels = none → (applyUpdate r u).tracked_channels = r.tracked_channels) ∧
      (u.notifications_enabled = none →
        (applyUpdate r u).notifications_enabled = r.notifications_enabled) ∧
      (∀ v, u.enabled = some v → (applyUpdate r u).enabled = v) ∧
      (∀ v, u.log_channel_id = some v → (applyUpdate r u).log_channel_id = JsVal.str v) ∧
      (∀ v, u.tracked_channels = some v → (applyUpdate r u).tracked_channels = v) ∧
      (∀ v, u.notifications_enabled = some v →
        (applyUpdate r u).notifications_enabled = v)) ∧
    db2.messages = db.messages ∧ db2.reactions = db.reactions ∧
    db2.members = db.members := by
  unfold updateGuildSettings at hok
  by_cases he : u.isEmpty
  · rw [if_pos he] at hok
    exact absurd hok (by simp)
  · rw [if_neg he] at hok
    cases hok
    refine ⟨?_, ?_, ?_, rfl, rfl, rfl⟩
    · intro r hr hne
      have : (if r.guild_id = g then applyUpdate r u else r) ∈
          db.guild_settings.map (fun r => if r.guild_id = g then applyUpdate r u else r) :=
        List.mem_map_of_mem _ hr
      rwa [if_neg hne] at this
    · intro r hr heq
      have : (if r.guild_id = g then applyUpdate r u else r) ∈
          db.guild_settings.map (fun r => if r.guild_id = g then applyUpdate r u else r) :=
        List.mem_map_of_mem _ hr
      rwa [if_pos heq] at this
    · intro r
      refine ⟨rfl, ?_, ?_, ?_, ?_, ?_, ?_, ?_, ?_⟩ <;>
        first
          | (intro h; simp [applyUpdate, h])
          | (intro v h; simp [applyUpdate, h])

/-- C4 witness: a concrete update of only `enabled` on a one-row store keeps
`notifications_enabled` and sets `enabled` to the named value. -/
theorem updateGuildSettings_frame_witness :
    applyUpdate (defaultRow "g1") { enabled := some 0 } ∈
      ({ messages := [], reactions := [], members := [],
         guild_settings := [applyUpdate (defaultRow "g1") { enabled := some 0 }] } : DB).guild_settings ∧
    (applyUpdate (defaultRow "g1")
      ({ enabled := some 0 } : SettingsUpdate)).notifications_enabled =
      (defaultRow "g1").notifications_enabled ∧
    (applyUpdate (defaultRow "g1") ({ enabled := some 0 } : SettingsUpdate)).enabled = 0 := by
  have hfr := updateGuildSettings_frame
    ({ messages := [], reactions := [], members := [],
       guild_settings := [defaultRow "g1"] } : DB) "g1" { enabled := some 0 } _ rfl
  exact ⟨hfr.2.1 (defaultRow "g1") (by simp) rfl,
    (hfr.2.2.1 (defaultRow "g1")).2.2.2.2.1 rfl,
    (hfr.2.2.1 (defaultRow "g1")).2.2.2.2.2.1 0 rfl⟩

/-! ## C9 -/

/-- C9 (amended): for a brand-new community the first `getGuildSettings`
call (lazy-create path, locally constructed object) and an immediately
following second call (reading the stored row) agree on `guild_id`,
`enabled`, `tracked_channels` and `notifications_enabled`, and both report a
falsy report channel — but the values are not identical: the first has no
`log_channel_id` key (JS `undefined`) while the second carries the stored
SQL `NULL`. -/
theorem first_vs_second_getSettings_agree (db : DB) (g : String)
    (h : selectSettings db g = none) :
    (getGuildSettings db g).2.guild_id =
      (getGuildSettings (getGuildSettings db g).1 g).2.guild_id ∧
    (getGuildSettings db g).2.enabled =
      (getGuildSettings (getGuildSettings db g).1 g).2.enabled ∧
    (getGuildSettings db g).2.tracked_channels =
      (getGuildSettings (getGuildSettings db g).1 g).2.tracked_channels ∧
    (getGuildSettings db g).2.notifications_enabled =
      (getGuildSettings (getGuildSettings db g).1 g).2.notifications_enabled ∧
    (getGuildSettings db g).2.log_channel_id = JsVal.undef ∧
    (getGuildSettings (getGuildSettings db g).1 g).2.log_channel_id = JsVal.null ∧
    JsVal.truthy (getGuildSettings db g).2.log_channel_id =
      JsVal.truthy (getGuildSettings (getGuildSettings db g).1 g).2.log_channel_id := by
  rw [getGuildSettings_of_none h]
  rw [getGuildSettings_of_some (selectSettings_after_insert h)]
  exact ⟨rfl, rfl, rfl, rfl, rfl, rfl, rfl⟩

/-- C9 witness: the agreement instantiated on the empty store. -/
theorem first_vs_second_getSettings_agree_witness :
    (getGuildSettings emptyDB "g1").2.enabled =
      (getGuildSettings (getGuildSettings emptyDB "g1").1 "g1").2.enabled ∧
    (getGuildSettings emptyDB "g1").2.log_channel_id = JsVal.undef ∧
    (getGuildSettings (getGuildSettings emptyDB "g1").1 "g1").2.log_channel_id =
      JsVal.null :=
  ⟨(first_vs_second_getSettings_agree emptyDB "g1" rfl).2.1,
   (first_vs_second_getSettings_agree emptyDB "g1" rfl).2.2.2.2.1,
   (first_vs_second_getSettings_agree emptyDB "g1" rfl).2.2.2.2.2.1⟩

/-- C9 counterexample: on the empty store the value returned by the first
call differs from the value returned by the second call — the first carries
`undefined` where the stored row carries `NULL` in the report-channel field. -/
theorem first_vs_second_getSettings_not_equal :
    (getGuildSettings emptyDB "g1").2 ≠
      (getGuildSettings (getGuildSettings emptyDB "g1").1 "g1").2 := by
  decide

/-! ## C5 -/

lemma rankTop10_spec (keys : List String) :
    (rankTop10 keys).length ≤ 10 ∧
    List.Pairwise countGE (rankTop10 keys) ∧
    ∀ p ∈ rankTop10 keys, p.1 ∈ keys ∧ p.2 = keys.count p.1 ∧ 1 ≤ p.2 := by
  refine ⟨?_, ?_, ?_⟩
  · unfold rankTop10
    rw [List.length_take]
    exact min_le_left _ _
  · unfold rankTop10
    exact List.Pairwise.sublist (List.take_sublist _ _)
      (List.sorted_insertionSort countGE (groupCounts keys))
  · intro p hp
    unfold rankTop10 at hp
    have hp2 : p ∈ (groupCounts keys).insertionSort countGE :=
      (List.take_sublist _ _).subset hp
    have hp3 : p ∈ groupCounts keys := (List.mem_insertionSort countGE).mp hp2
    unfold groupCounts at hp3
    obtain ⟨k, hk, hkp⟩ := List.mem_map.mp hp3
    cases hkp
    have hkk : k ∈ keys := List.mem_dedup.mp hk
    exact ⟨hkk, rfl, List.count_pos_iff.mpr hkk⟩

/-- C5: `top_users` and `top_channels` of `getAnalytics` have length at most
10, their counts are non-increasing along the list, every listed identifier
has at least one message of that guild inside the window, and every listed
count is exactly the number of in-window messages of that author
(respectively channel). -/
theorem topN_ranking_spec (db : DB) (g : String) (now : Int) (period : String) :
    (getAnalytics db g now period).topUsers.length ≤ 10 ∧
    (getAnalytics db g now period).topChannels.length ≤ 10 ∧
    List.Pairwise countGE (getAnalytics db g now period).topUsers ∧
    List.Pairwise countGE (getAnalytics db g now period).topChannels ∧
    (∀ p ∈ (getAnalytics db g now period).topUsers,
      (∃ m ∈ db.messages, m.guild_id = g ∧ now - timeRangeOf period ≤ m.timestamp ∧
        m.user_id = p.1) ∧
      p.2 = ((windowMessages db g now (timeRangeOf period)).map MessageRow.user_id).count p.1 ∧
      1 ≤ p.2) ∧
    (∀ p ∈ (getAnalytics db g now period).topChannels,
      (∃ m ∈ db.messages, m.guild_id = g ∧ now - timeRangeOf period ≤ m.timestamp ∧
        m.channel_id = p.1) ∧
      p.2 = ((windowMessages db g now (timeRangeOf period)).map MessageRow.channel_id).count p.1 ∧
      1 ≤ p.2) := by
  have hu : (getAnalytics db g now period).topUsers =
      rankTop10 ((windowMessages db g now (timeRangeOf period)).map MessageRow.user_id) := rfl
  have hc : (getAnalytics db g now period).topChannels =
      rankTop10 ((windowMessages db g now (timeRangeOf period)).map MessageRow.channel_id) := rfl
  rw [hu, hc]
  obtain ⟨hul, hup, hum⟩ :=
    rankTop10_spec ((windowMessages db g now (timeRangeOf period)).map MessageRow.user_id)
  obtain ⟨hcl, hcp, hcm⟩ :=
    rankTop10_spec ((windowMessages db g now (timeRangeOf period)).map MessageRow.channel_id)
  refine ⟨hul, hcl, hup, hcp, ?_, ?_⟩
  · intro p hp
    obtain ⟨hk, hcount, hpos⟩ := hum p hp
    obtain ⟨m, hm, hmid⟩ := List.mem_map.mp hk
    have hmw := List.mem_filter.mp hm
    refine ⟨⟨m, hmw.1, ?_, ?_, hmid⟩, hcount, hpos⟩
    · have := hmw.2
      unfold currWindowPred at this
      simp only [Bool.and_eq_true, decide_eq_true_eq] at this
      exact this.1
    · have := hmw.2
      unfold currWindowPred at this
      simp only [Bool.and_eq_true, decide_eq_true_eq] at this
      exact this.2
  · intro p hp
    obtain ⟨hk, hcount, hpos⟩ := hcm p hp
    obtain ⟨m, hm, hmid⟩ := List.mem_map.mp hk
    have hmw := List.mem_filter.mp hm
    refine ⟨⟨m, hmw.1, ?_, ?_, hmid⟩, hcount, hpos⟩
    · have := hmw.2
      unfold currWindowPred at this
      simp only [Bool.and_eq_true, decide_eq_true_eq] at this
      exact this.1
    · have := hmw.2
      unfold currWindowPred at this
      simp only [Bool.and_eq_true, decide_eq_true_eq] at this
      exact this.2

/-! ## C6 -/

lemma timeRangeOf_pos (period : String) : 0 < timeRangeOf period := by
  unfold timeRangeOf
  by_cases h : period = "week"
  · rw [if_pos h]; norm_num
  · rw [if_neg h]; norm_num

/-- C6: `getPreviousAnalytics` counts exactly the messages of the guild in
the half-open window: the predicate holds iff the timestamp lies in
`[now - 2w, now - w)`; a message dated exactly `now - w` is excluded and one
dated exactly `now - 2w` (for the right guild) is included; and no message
satisfies both the previous-window predicate and the current-window
predicate of `getAnalytics`. -/
theorem prev_window_spec (db : DB) (g : String) (now : Int) (period : String)
    (m : MessageRow) :
    (getPreviousAnalytics db g now period).totalMessages =
      db.messages.countP (prevWindowPred g now (timeRangeOf period)) ∧
    (prevWindowPred g now (timeRangeOf period) m = true ↔
      (m.guild_id = g ∧ now - timeRangeOf period * 2 ≤ m.timestamp ∧
        m.timestamp < now - timeRangeOf period)) ∧
    (m.timestamp = now - timeRangeOf period →
      prevWindowPred g now (timeRangeOf period) m = false) ∧
    (m.guild_id = g → m.timestamp = now - timeRangeOf period * 2 →
      prevWindowPred g now (timeRangeOf period) m = true) ∧
    ¬(prevWindowPred g now (timeRangeOf period) m = true ∧
      currWindowPred g now (timeRangeOf period) m = true) := by
  refine ⟨?_, ?_, ?_, ?_, ?_⟩
  · unfold getPreviousAnalytics
    rw [List.countP_eq_length_filter]
  · unfold prevWindowPred
    simp only [Bool.and_eq_true, decide_eq_true_eq]
    tauto
  · intro h
    unfold prevWindowPred
    rw [h]
    simp
  · intro hg ht
    unfold prevWindowPred
    rw [hg, ht]
    have := timeRangeOf_pos period
    simp only [Bool.and_eq_true, decide_eq_true_eq]
    refine ⟨⟨by simp, le_refl _⟩, ?_⟩
    linarith
  · rintro ⟨hp, hc⟩
    unfold prevWindowPred at hp
    unfold currWindowPred at hc
    simp only [Bool.and_eq_true, decide_eq_true_eq] at hp hc
    linarith [hp.2, hc.2]

/-- C6 witness: with `now = 0` and a weekly window, a message dated exactly
`now - w` is excluded and one dated exactly `now - 2w` is included. -/
theorem prev_window_spec_witness :
    prevWindowPred "g1" 0 (timeRangeOf "week")
      { guild_id := "g1", user_id := "u1", channel_id := "c1",
        message_length := 3, timestamp := -604800000 } = false ∧
    prevWindowPred "g1" 0 (timeRangeOf "week")
      { guild_id := "g1", user_id := "u1", channel_id := "c1",
        message_length := 3, timestamp := -1209600000 } = true :=
  ⟨(prev_window_spec emptyDB "g1" 0 "week" _).2.2.1 (by norm_num [timeRangeOf]),
   (prev_window_spec emptyDB "g1" 0 "week" _).2.2.2.1 rfl (by norm_num [timeRangeOf])⟩

/-! ## C7 -/

lemma countAt_of_mem : ∀ (ha : List HourCount), (ha.map HourCount.hour).Nodup →
    ∀ hc ∈ ha, countAt ha hc.hour = hc.count := by
  intro ha
  induction ha with
  | nil => intro _ hc h; exact absurd h (by simp)
  | cons a t ih =>
      intro hnd hc hmem
      rw [List.map_cons, List.nodup_cons] at hnd
      rcases List.mem_cons.mp hmem with heq | htl
      · subst heq
        unfold countAt
        rw [List.find?_cons_of_pos _ (by simp)]
      · have hne : ¬(a.hour = hc.hour) := by
          intro h
          exact hnd.1 (h ▸ List.mem_map_of_mem HourCount.hour htl)
        unfold countAt
        rw [List.find?_cons_of_neg _ (by simpa using hne)]
        exact ih hnd.2 hc htl

lemma countAt_of_absent (ha : List HourCount) (h : Nat)
    (habs : ∀ hc ∈ ha, ¬(hc.hour = h)) : countAt ha h = 0 := by
  unfold countAt
  rw [List.find?_eq_none.mpr (by intro hc hmem; simpa using habs hc hmem)]

lemma zip_self_map {α β : Type} (f : α → β) :
    ∀ l : List α, l.zip (l.map f) = l.map (fun x => (x, f x)) := by
  intro l
  induction l with
  | nil => rfl
  | cons a t ih => rw [List.map_cons, List.zip_cons_cons, ih, List.map_cons]

lemma heatmapSeries_eq (ha : List HourCount) :
    heatmapSeries ha = (List.range 24).map (fun h => (h, countAt ha h)) := by
  unfold heatmapSeries heatmapCounts heatmapHours
  exact zip_self_map _ _

/-- C7: for a sparse hourly input with distinct hours, the densified heatmap
series has exactly 24 entries whose hour components are 0 through 23 in
ascending order (`List.range 24`), carries each present hour with exactly its
input count, and carries every absent hour with count 0. -/
theorem heatmap_densify (ha : List HourCount)
    (hnd : (ha.map HourCount.hour).Nodup) :
    (heatmapSeries ha).length = 24 ∧
    (heatmapSeries ha).map Prod.fst = List.range 24 ∧
    (∀ hc ∈ ha, hc.hour < 24 → (hc.hour, hc.count) ∈ heatmapSeries ha) ∧
    (∀ h < 24, (∀ hc ∈ ha, ¬(hc.hour = h)) → (h, 0) ∈ heatmapSeries ha) := by
  rw [heatmapSeries_eq]
  refine ⟨?_, ?_, ?_, ?_⟩
  · rw [List.length_map, List.length_range]
  · rw [List.map_map]
    exact List.map_id _
  · intro hc hmem hlt
    refine List.mem_map.mpr ⟨hc.hour, List.mem_range.mpr hlt, ?_⟩
    rw [countAt_of_mem ha hnd hc hmem]
  · intro h hlt habs
    refine List.mem_map.mpr ⟨h, List.mem_range.mpr hlt, ?_⟩
    rw [countAt_of_absent ha h habs]

/-- C7 witness: the sparse input with activity only at hours 3 and 0. -/
theorem heatmap_densify_witness :
    ((3 : Nat), (5 : Nat)) ∈ heatmapSeries [⟨3, 5⟩, ⟨0, 2⟩] ∧
    ((7 : Nat), (0 : Nat)) ∈ heatmapSeries [⟨3, 5⟩, ⟨0, 2⟩] ∧
    (heatmapSeries [⟨3, 5⟩, ⟨0, 2⟩]).length = 24 :=
  ⟨(heatmap_densify [⟨3, 5⟩, ⟨0, 2⟩] (by decide)).2.2.1 ⟨3, 5⟩ (by decide) (by decide),
   (heatmap_densify [⟨3, 5⟩, ⟨0, 2⟩] (by decide)).2.2.2 7 (by decide) (by decide),
   (heatmap_densify [⟨3, 5⟩, ⟨0, 2⟩] (by decide)).1⟩

/-! ## C8 -/

/-- C8: `trackMessage` appends its row unconditionally — also right after
tracking has been disabled for the guild — while the ingestion gate lives in
the `MessageCreate` listener: with a stored settings row it skips recording
when `enabled` is 0, skips when a non-empty tracked-channel list does not
contain the channel, and otherwise records exactly one message row. -/
theorem store_records_unconditionally (db : DB) (g userId channelId : String)
    (len : Nat) (now : Int) :
    (∀ u db2, updateGuildSettings db g u = Except.ok db2 →
      (trackMessage db2 g userId channelId len now).messages =
        db2.messages ++
          [{ guild_id := g, user_id := userId, channel_id := channelId,
             message_length := len, timestamp := now }]) ∧
    (trackMessage db g userId channelId len now).messages =
      db.messages ++
        [{ guild_id := g, user_id := userId, channel_id := channelId,
           message_length := len, timestamp := now }] ∧
    (∀ msg : IncomingMessage, ∀ s : SettingsRow,
      msg.authorIsBot = false → msg.guild = some g → selectSettings db g = some s →
      (s.enabled = 0 → onMessageCreate db msg now = db) ∧
      (parseChannels s.tracked_channels ≠ [] →
        msg.channel_id ∉ parseChannels s.tracked_channels →
        onMessageCreate db msg now = db) ∧
      (¬(s.enabled = 0) →
        (parseChannels s.tracked_channels = [] ∨
          msg.channel_id ∈ parseChannels s.tracked_channels) →
        (onMessageCreate db msg now).messages = db.messages ++
          [{ guild_id := g, user_id := msg.author_id, channel_id := msg.channel_id,
             message_length := msg.content_length, timestamp := now }])) := by
  refine ⟨fun u db2 _ => rfl, rfl, ?_⟩
  intro msg s hbot hg hsel
  have hone : onMessageCreate db msg now =
      (if s.enabled = 0 then db
       else if parseChannels s.tracked_channels ≠ [] ∧
           msg.channel_id ∉ parseChannels s.tracked_channels then db
       else trackMessage db g msg.author_id msg.channel_id msg.content_length now) := by
    unfold onMessageCreate
    rw [hbot, hg]
    simp only [Bool.false_eq_true, if_false]
    rw [getGuildSettings_of_some hsel]
  refine ⟨?_, ?_, ?_⟩
  · intro he
    rw [hone, if_pos he]
  · intro hne hnm
    rw [hone]
    by_cases he : s.enabled = 0
    · rw [if_pos he]
    · rw [if_neg he, if_pos ⟨hne, hnm⟩]
  · intro he htr
    rw [hone, if_neg he]
    have hcond : ¬(parseChannels s.tracked_channels ≠ [] ∧
        msg.channel_id ∉ parseChannels s.tracked_channels) := by
      rcases htr with hnil | hmem
      · intro hc; exact hc.1 hnil
      · intro hc; exact hc.2 hmem
    rw [if_neg hcond]
    rfl

/-- C8 witness: with tracking disabled in the stored row, the listener
records nothing, but a direct `trackMessage` call for the same guild still
appends the message row. -/
theorem store_records_unconditionally_witness :
    onMessageCreate disabledStore
      { authorIsBot := false, guild := some "g1", author_id := "u1",
        channel_id := "c1", content_length := 7 } 5 = disabledStore ∧
    (trackMessage disabledStore "g1" "u1" "c1" 7 5).messages =
      [{ guild_id := "g1", user_id := "u1", channel_id := "c1",
         message_length := 7, timestamp := 5 }] :=
  ⟨((store_records_unconditionally disabledStore "g1" "u1" "c1" 7 5).2.2
      { authorIsBot := false, guild := some "g1", author_id := "u1",
        channel_id := "c1", content_length := 7 }
      { guild_id := "g1", enabled := 0, log_channel_id := JsVal.null,
        tracked_channels := "[]", notifications_enabled := 1 }
      rfl rfl rfl).1 rfl,
   (store_records_unconditionally disabledStore "g1" "u1" "c1" 7 5).2.1⟩

end AiBot
